import Mathlib

/-!
Verification of the public_partner_portal filter engine.

The repository's computational core (src/App.py, src/App4.py, src/App5.py)
is a pandas-based table filtering tool.  This file gives a shallow
embedding of that core:

  * a table is a list of column headers plus a list of rows, each row a
    list of cells; a cell is `Option String`, `none` standing for a
    missing value (pandas NaN);
  * pandas string coercion `astype(str)` turns NaN into the literal text
    "nan" (`cellStr`);
  * `normalize_cols`, the merge step (`df_merged`) and the two variants of
    `filter_dataframe` (App4.py and App5.py) are translated function by
    function, keeping the source's application order, activation guards
    and per-row predicates.
-/

/-! ### Character-list string primitives

Python `str.strip()` removes leading and trailing whitespace, `str.lower()`
lowercases, `s.split(";")` splits on every semicolon keeping empty parts,
and `a in b` / `str.contains` is substring containment.  These are modelled
on `List Char` (the `data` field of `String`).
-/

/-- Whitespace test used by the model of Python `str.strip`. -/
def isWS (c : Char) : Bool :=
  c == ' ' || c == '\t' || c == '\n' || c == '\r'

/-- Drop leading whitespace. -/
def trimL (l : List Char) : List Char := l.dropWhile isWS

/-- Drop trailing whitespace. -/
def trimR (l : List Char) : List Char := (l.reverse.dropWhile isWS).reverse

/-- Drop leading and trailing whitespace: Python `str.strip()`. -/
def trimChars (l : List Char) : List Char := trimR (trimL l)

/-- Python `s.strip()` on strings. -/
def stripS (s : String) : String := ⟨trimChars s.data⟩

/-- Lowercase a character list: Python `str.lower()`. -/
def lowerL (l : List Char) : List Char := l.map Char.toLower

/-- Python `s.lower()` on strings. -/
def lowerS (s : String) : String := ⟨lowerL s.data⟩

/-- Does the haystack start with the pattern (first argument)? -/
def leadsWith : List Char → List Char → Bool
  | [], _ => true
  | _ :: _, [] => false
  | c :: cs, d :: ds => c == d && leadsWith cs ds

/-- Substring containment: `hasSubL hay pat` is true iff `pat` occurs
contiguously inside `hay` (Python `pat in hay`). -/
def hasSubL : List Char → List Char → Bool
  | [], pat => pat.isEmpty
  | c :: t, pat => leadsWith pat (c :: t) || hasSubL t pat

/-- Substring containment on strings. -/
def hasSubS (s pat : String) : Bool := hasSubL s.data pat.data

/-- Python `s.split(";")`: split on every semicolon, keeping empty parts,
so that the empty string splits to one empty part. -/
def splitSemi : List Char → List (List Char)
  | [] => [[]]
  | c :: t =>
    if c == ';' then [] :: splitSemi t
    else
      match splitSemi t with
      | [] => [[c]]
      | h :: r => (c :: h) :: r

/-- Numeric value of a decimal digit character. -/
def digitVal (c : Char) : Option Nat :=
  if '0' ≤ c ∧ c ≤ '9' then some (c.toNat - '0'.toNat) else none

/-- Accumulate decimal digits; any non-digit makes the parse fail. -/
def parseDigitsAux : List Char → Nat → Option Nat
  | [], acc => some acc
  | c :: t, acc =>
    match digitVal c with
    | some d => parseDigitsAux t (acc * 10 + d)
    | none => none

/-- Parse a non-empty run of decimal digits. -/
def parseDigits : List Char → Option Nat
  | [] => none
  | l => parseDigitsAux l 0

/-- Model of `pd.to_numeric(_, errors="coerce")` on a string cell: an
optionally signed integer literal (surrounding whitespace tolerated);
anything else coerces to "no value". -/
def toNumericS (s : String) : Option Int :=
  match trimChars s.data with
  | '-' :: rest => (parseDigits rest).map (fun n => -(n : Int))
  | l => (parseDigits l).map (fun n => (n : Int))

/-! ### Tables -/

/-- A cell of the table; `none` is pandas NaN / a missing value. -/
abbrev Cell := Option String

/-- `pd.to_numeric(errors="coerce")` on a cell: NaN stays "no value". -/
def toNumericCell : Cell → Option Int
  | none => none
  | some s => toNumericS s

/-- Pandas `astype(str)`: NaN prints as the text "nan". -/
def cellStr : Cell → String
  | none => "nan"
  | some s => s

/-- A row, positionally aligned with the header list. -/
abbrev Row := List Cell

/-- A loaded table: headers plus rows. -/
structure Df where
  cols : List String
  rows : List Row
deriving DecidableEq, Repr

/-- Value of row `r` at column `c` (first header occurrence wins); a column
absent from the header list reads as a missing value. -/
def getCell (cols : List String) (r : Row) (c : String) : Cell :=
  match (cols.zip r).find? (fun p => p.1 == c) with
  | some p => p.2
  | none => none

/-- Model of a Python dict insertion `m[k] = v`: replace in place if the
key exists, else append. -/
def insertKV (m : List (String × String)) (k v : String) : List (String × String) :=
  match m with
  | [] => [(k, v)]
  | (k0, v0) :: t => if k0 == k then (k, v) :: t else (k0, v0) :: insertKV t k v

/-- `normalize_cols` from App4.py/App5.py (App.py is the same up to the
loop/comprehension phrasing): strip every header, then build the
lowercase-to-original lookup `{c.lower().strip(): c for c in df.columns}`
(later duplicates overwrite earlier ones, as in a Python dict build). -/
def normalize_cols (df : Df) : Df × List (String × String) :=
  let df2 : Df := { cols := df.cols.map stripS, rows := df.rows }
  (df2, df2.cols.foldl (fun m c => insertKV m (stripS (lowerS c)) c) [])

/-! ### The App4.py filter engine -/

namespace App4

/-- The `filters` dict built at App4.py lines 596-618 and consumed by
`filter_dataframe` (App4.py lines 265-329).  Criterion slots hold the user
selection; `_col` slots hold the resolved column name or `none` when the
Column Resolver found no match.  `min_age`/`max_age` are `none` when the
corresponding key is absent (`filters.get` returning Python None). -/
structure Filters where
  disease_area : String
  disease_cols : List String
  gender : String
  gender_col : Option String
  ethnicity : String
  ethnicity_col : Option String
  carer : String
  carer_col : Option String
  sexuality : String
  sexuality_col : Option String
  min_age : Option Int
  max_age : Option Int
  age_col : Option String
  name_search : String
  name_col : Option String

/-- App4.py lines 270-277: the multi-disease filter.  Active when the
criterion is a non-empty string other than "Any" and the resolved disease
column list is non-empty; a row passes when the lowercased, stripped cell
text of some listed column that is present in the table contains the
lowercased, stripped keyword. -/
def diseaseStage (cols : List String) (area : String) (dcols : List String)
    (rows : List Row) : List Row :=
  if area != "" && area != "Any" then
    if dcols != [] then
      rows.filter (fun r =>
        dcols.any (fun c =>
          cols.contains c &&
            hasSubS (stripS (lowerS (cellStr (getCell cols r c)))) (stripS (lowerS area))))
    else rows
  else rows

/-- App4.py lines 280-285 and 303-304: the exact-match filter used for
gender, ethnicity and sexuality.  Active when the criterion is non-empty,
not "Any", and the resolved column is present in the table; a row passes
when `cell.astype(str).lower().strip()` equals `criterion.lower().strip()`. -/
def exactStage (cols : List String) (crit : String) (colOpt : Option String)
    (rows : List Row) : List Row :=
  match colOpt with
  | some c =>
    if crit != "" && crit != "Any" && cols.contains c then
      rows.filter (fun r =>
        stripS (lowerS (cellStr (getCell cols r c))) == stripS (lowerS crit))
    else rows
  | none => rows

/-- Membership test `isin(["none", "nan", ""])` from App4.py lines 292-294. -/
def carerBad (s : String) : Bool := s == "none" || s == "nan" || s == ""

/-- App4.py lines 288-300: the carer filter.  When the selection lowercases
to "none", the code applies the `isin(["none","nan",""]) == False` filter
twice (once with lower-then-strip, once with strip-then-lower), keeping
the rows whose cell is NOT empty/none/nan.  Otherwise a row passes when
some non-blank semicolon-separated part of the cell, stripped and
lowercased, equals the lowercased selection. -/
def carerStage (cols : List String) (crit : String) (colOpt : Option String)
    (rows : List Row) : List Row :=
  match colOpt with
  | some c =>
    if crit != "" && crit != "Any" && cols.contains c then
      if lowerS crit == "none" then
        (rows.filter (fun r =>
            !carerBad (stripS (lowerS (cellStr (getCell cols r c)))))).filter
          (fun r => !carerBad (lowerS (stripS (cellStr (getCell cols r c)))))
      else
        rows.filter (fun r =>
          (splitSemi (cellStr (getCell cols r c)).data).any (fun part =>
            !(trimChars part).isEmpty && lowerL crit.data == lowerL (trimChars part)))
    else rows
  | none => rows

/-- App4.py lines 318-322: the age-range step proper.  The cell is coerced
with `pd.to_numeric(errors="coerce")` and the row passes when the coerced
value exists and lies in `[mn, mx]` inclusive; the temporary numeric
column the code adds is dropped again, so only the row set changes. -/
def ageStage (cols : List String) (colOpt : Option String) (mn mx : Int)
    (rows : List Row) : List Row :=
  match colOpt with
  | some c =>
    if cols.contains c then
      rows.filter (fun r =>
        match toNumericCell (getCell cols r c) with
        | some v => decide (mn ≤ v) && decide (v ≤ mx)
        | none => false)
    else rows
  | none => rows

/-- App4.py lines 325-327: the name-substring search,
`str.contains(name_search, case=False, na=False)`. -/
def nameStage (cols : List String) (search : String) (colOpt : Option String)
    (rows : List Row) : List Row :=
  if search != "" then
    match colOpt with
    | some c =>
      if cols.contains c then
        rows.filter (fun r =>
          hasSubL (lowerL (cellStr (getCell cols r c)).data) (lowerL search.data))
      else rows
    | none => rows
  else rows

/-- The pipeline of all filters applied before the age step, in the
source's order: disease, gender, ethnicity, carer, sexuality
(App4.py lines 269-304). -/
def preAge (cols : List String) (f : Filters) (rows : List Row) : List Row :=
  exactStage cols f.sexuality f.sexuality_col
    (carerStage cols f.carer f.carer_col
      (exactStage cols f.ethnicity f.ethnicity_col
        (exactStage cols f.gender f.gender_col
          (diseaseStage cols f.disease_area f.disease_cols rows))))

/-- `filter_dataframe` of App4.py (lines 265-329).  The boolean component
records whether the `st.error("Max Age cannot be less than Min Age")`
signal was emitted; in that case the function returns the rows filtered so
far (everything before the age step) and skips the name search. -/
def filter_dataframe (cols : List String) (rows : List Row) (f : Filters) :
    List Row × Bool :=
  match f.min_age, f.max_age with
  | some mn, some mx =>
    if mn == 0 && mx == 0 then
      (nameStage cols f.name_search f.name_col (preAge cols f rows), false)
    else if mx < mn then
      (preAge cols f rows, true)
    else
      (nameStage cols f.name_search f.name_col
        (ageStage cols f.age_col mn mx (preAge cols f rows)), false)
  | _, _ => (nameStage cols f.name_search f.name_col (preAge cols f rows), false)

end App4

/-! ### The App5.py filter engine

App5.py's `filter_dataframe` (lines 118-171) differs from App4.py's in
three ways: the carer filter is a plain exact match (no semicolon
splitting and no "None" special case), an expertise-substring search runs
after the name search, and the activation guards test the truthiness of
the resolved column name (`filters.get('x_col')`) instead of membership in
`dfc.columns`.  Column indexing is modelled with `getCell`; in the app
every resolved column name comes from the table's own header list, so the
pandas missing-label error path is never reached. -/

namespace App5

/-- The `filters` dict built at App5.py lines 364-386. -/
structure Filters where
  disease_area : String
  disease_cols : List String
  gender : String
  gender_col : Option String
  ethnicity : String
  ethnicity_col : Option String
  carer : String
  carer_col : Option String
  min_age : Option Int
  max_age : Option Int
  age_col : Option String
  name_search : String
  name_col : Option String
  expertise_search : String
  expertise_col : Option String

/-- Python truthiness of an optional column name: present and non-empty. -/
def truthyCol : Option String → Bool
  | some c => c != ""
  | none => false

/-- App5.py lines 123-129: the multi-disease filter (no per-column
membership check, unlike App4.py). -/
def diseaseStage (cols : List String) (area : String) (dcols : List String)
    (rows : List Row) : List Row :=
  if area != "" && area != "Any" then
    if dcols != [] then
      rows.filter (fun r =>
        dcols.any (fun c =>
          hasSubS (stripS (lowerS (cellStr (getCell cols r c)))) (stripS (lowerS area))))
    else rows
  else rows

/-- App5.py lines 132-141: the exact-match filter used for gender,
ethnicity and carer. -/
def exactStage (cols : List String) (crit : String) (colOpt : Option String)
    (rows : List Row) : List Row :=
  if crit != "" && crit != "Any" && truthyCol colOpt then
    match colOpt with
    | some c =>
      rows.filter (fun r =>
        stripS (lowerS (cellStr (getCell cols r c))) == stripS (lowerS crit))
    | none => rows
  else rows

/-- App5.py lines 155-160: the age-range step,
`between(min_age, max_age, inclusive="both")` on the coerced column. -/
def ageStage (cols : List String) (colOpt : Option String) (mn mx : Int)
    (rows : List Row) : List Row :=
  if truthyCol colOpt then
    match colOpt with
    | some c =>
      rows.filter (fun r =>
        match toNumericCell (getCell cols r c) with
        | some v => decide (mn ≤ v) && decide (v ≤ mx)
        | none => false)
    | none => rows
  else rows

/-- App5.py lines 163-165: the name-substring search. -/
def nameStage (cols : List String) (search : String) (colOpt : Option String)
    (rows : List Row) : List Row :=
  if search != "" then
    if truthyCol colOpt then
      match colOpt with
      | some c =>
        rows.filter (fun r =>
          hasSubL (lowerL (cellStr (getCell cols r c)).data) (lowerL search.data))
      | none => rows
    else rows
  else rows

/-- App5.py lines 168-169: the expertise-substring search. -/
def expertiseStage (cols : List String) (search : String) (colOpt : Option String)
    (rows : List Row) : List Row :=
  if search != "" && truthyCol colOpt then
    match colOpt with
    | some c =>
      rows.filter (fun r =>
        hasSubL (lowerL (cellStr (getCell cols r c)).data) (lowerL search.data))
    | none => rows
  else rows

/-- The pipeline of all filters applied before the age step, in App5.py's
order: disease, gender, ethnicity, carer. -/
def preAge (cols : List String) (f : Filters) (rows : List Row) : List Row :=
  exactStage cols f.carer f.carer_col
    (exactStage cols f.ethnicity f.ethnicity_col
      (exactStage cols f.gender f.gender_col
        (diseaseStage cols f.disease_area f.disease_cols rows)))

/-- `filter_dataframe` of App5.py (lines 118-171); the boolean component
records the invalid-range `st.error` signal, after which the function
returns the rows filtered so far, skipping the age, name and expertise
steps. -/
def filter_dataframe (cols : List String) (rows : List Row) (f : Filters) :
    List Row × Bool :=
  match f.min_age, f.max_age with
  | some mn, some mx =>
    if mn == 0 && mx == 0 then
      (expertiseStage cols f.expertise_search f.expertise_col
        (nameStage cols f.name_search f.name_col (preAge cols f rows)), false)
    else if mx < mn then
      (preAge cols f rows, true)
    else
      (expertiseStage cols f.expertise_search f.expertise_col
        (nameStage cols f.name_search f.name_col
          (ageStage cols f.age_col mn mx (preAge cols f rows))), false)
  | _, _ =>
    (expertiseStage cols f.expertise_search f.expertise_col
      (nameStage cols f.name_search f.name_col (preAge cols f rows)), false)

end App5

/-! ### The merge step (App4.py lines 388-412, App5.py lines 195-221)

Both two-source variants resolve an identifier column in each table and
run `df_pecd.merge(df_edi, left_on=..., right_on=..., how="left",
suffixes=("", "_EDI"))`.  Pandas left-merge semantics: the output keeps
every left row in order; a left row is paired with EVERY right row whose
key cell equals its key cell (in right-table order), and with an all-NaN
right side when no right row matches.  Output columns are the left
columns followed by the right columns, a right column name that collides
with a left one receiving the "_EDI" suffix — EXCEPT for the right key
column itself when `left_on` and `right_on` are the same label: in that
case pandas takes the `on=` path and drops the right key column entirely
(`_get_merge_keys` puts it on `right_drop`), leaving a single identifier
column that carries the left keys. -/

/-- Position of a column name in a header list. -/
def colIdx (cols : List String) (c : String) : Option Nat :=
  cols.findIdx? (fun x => x == c)

/-- Merged header list: left columns, then the surviving right columns
with colliding names suffixed by "_EDI" (the caller erases the right key
column beforehand when the key labels are equal). -/
def mergeCols (pcols scols : List String) : List String :=
  pcols ++ scols.map (fun c => if pcols.contains c then c ++ "_EDI" else c)

/-- Merged row list of a pandas left merge keyed on the given column
positions.  `dropKey` is true when the two key labels are equal, in which
case the right key cell is removed from every matched right row;
`sWidth` is the number of surviving right-table columns, used to pad
unmatched left rows with NaN. -/
def mergeRows (iP iS : Nat) (prows srows : List Row) (sWidth : Nat)
    (dropKey : Bool) : List Row :=
  prows.flatMap (fun pr =>
    match srows.filter (fun sr => sr.getD iS none == pr.getD iP none) with
    | [] => [pr ++ List.replicate sWidth none]
    | ms => ms.map (fun sr => pr ++ (if dropKey then sr.eraseIdx iS else sr)))

/-- The `df_merged` construction: resolve both identifier columns and left
merge, dropping the right key column when the two key labels coincide
(pandas' `left_on == right_on` path); `none` models the wrapped pandas
merge error when an identifier column is not a column of its table. -/
def df_merged (p s : Df) (pid sid : String) : Option Df :=
  match colIdx p.cols pid, colIdx s.cols sid with
  | some iP, some iS =>
    if pid == sid then
      some { cols := mergeCols p.cols (s.cols.eraseIdx iS)
             rows := mergeRows iP iS p.rows s.rows (s.cols.eraseIdx iS).length true }
    else
      some { cols := mergeCols p.cols s.cols
             rows := mergeRows iP iS p.rows s.rows s.cols.length false }
  | _, _ => none

/-! ### Concrete filter records used by the examples below -/

/-- An App4 criteria set with every filter at its inactive default:
"Any" selections, empty name search, age range [0, 0], nothing mapped. -/
def anyFilters4 : App4.Filters :=
  { disease_area := "Any", disease_cols := [], gender := "Any", gender_col := none,
    ethnicity := "Any", ethnicity_col := none, carer := "Any", carer_col := none,
    sexuality := "Any", sexuality_col := none, min_age := some 0, max_age := some 0,
    age_col := none, name_search := "", name_col := none }

/-- An App5 criteria set with every filter at its inactive default. -/
def anyFilters5 : App5.Filters :=
  { disease_area := "Any", disease_cols := [], gender := "Any", gender_col := none,
    ethnicity := "Any", ethnicity_col := none, carer := "Any", carer_col := none,
    min_age := some 0, max_age := some 0, age_col := none,
    name_search := "", name_col := none, expertise_search := "", expertise_col := none }

/-! ### Library lemmas about trimming -/

/-- Dropping a satisfied run twice is the same as dropping it once. -/
theorem dropWhile_idem {α : Type} (p : α → Bool) (l : List α) :
    List.dropWhile p (List.dropWhile p l) = List.dropWhile p l := by
  induction l with
  | nil => rfl
  | cons a t ih =>
    by_cases h : p a = true
    · rw [List.dropWhile_cons, if_pos h]
      exact ih
    · rw [List.dropWhile_cons, if_neg h, List.dropWhile_cons, if_neg h]

/-- Left-trimming is idempotent. -/
theorem trimL_trimL (l : List Char) : trimL (trimL l) = trimL l :=
  dropWhile_idem isWS l

/-- Right-trimming is idempotent. -/
theorem trimR_trimR (l : List Char) : trimR (trimR l) = trimR l := by
  unfold trimR
  rw [List.reverse_reverse, dropWhile_idem]

/-- The right-trimmed list is an initial segment of the original. -/
theorem trimR_pref (l : List Char) : trimR l <+: l := by
  obtain ⟨t, ht⟩ := @List.dropWhile_suffix _ l.reverse isWS
  refine ⟨t.reverse, ?_⟩
  have hrev := congrArg List.reverse ht
  rw [List.reverse_append, List.reverse_reverse] at hrev
  exact hrev

/-- A prefix of a list with no leading whitespace has no leading
whitespace either. -/
theorem trimL_eq_self_of_pref (x m : List Char) (hx : x <+: m)
    (hm : trimL m = m) : trimL x = x := by
  cases x with
  | nil => rfl
  | cons c t =>
    obtain ⟨r, hr⟩ := hx
    subst hr
    unfold trimL at hm ⊢
    rw [List.cons_append, List.dropWhile_cons] at hm
    by_cases hc : isWS c = true
    · rw [if_pos hc] at hm
      have hlen := List.Sublist.length_le (@List.dropWhile_sublist _ (t ++ r) isWS)
      rw [hm] at hlen
      simp at hlen
    · rw [List.dropWhile_cons, if_neg hc]

/-- Python `strip` is idempotent on character lists. -/
theorem trimChars_idem (l : List Char) : trimChars (trimChars l) = trimChars l := by
  unfold trimChars
  have h2 : trimL (trimR (trimL l)) = trimR (trimL l) :=
    trimL_eq_self_of_pref _ _ (trimR_pref (trimL l)) (trimL_trimL l)
  rw [h2, trimR_trimR]

/-- Python `strip` is idempotent on strings. -/
theorem stripS_idem (s : String) : stripS (stripS s) = stripS s :=
  congrArg String.mk (trimChars_idem s.data)

/-- C8.  Idempotent schema normalization: normalizing an already-normalized
table returns the same table and the same lowercase-to-original lookup,
and normalization never touches cell values, only header text. -/
theorem normalize_cols_idempotent (df : Df) :
    normalize_cols (normalize_cols df).1 = normalize_cols df ∧
      (normalize_cols df).1.rows = df.rows := by
  have hmap : (df.cols.map stripS).map stripS = df.cols.map stripS := by
    rw [List.map_map]
    exact List.map_congr_left (fun a _ => stripS_idem a)
  refine ⟨?_, rfl⟩
  unfold normalize_cols
  simp only [hmap]

/-! ### Structural lemmas about the App4 filter stages -/

namespace App4

/-- A select criterion at its inactive value: empty or the "Any" sentinel. -/
abbrev inactiveSel (s : String) : Prop := s = "" ∨ s = "Any"

/-- The disease filter with the "Any" sentinel removes nothing. -/
theorem diseaseStage_inactive (cols : List String) (area : String) (dcols : List String)
    (rows : List Row) (h : inactiveSel area) : diseaseStage cols area dcols rows = rows := by
  rcases h with h | h <;> subst h <;> simp [diseaseStage]

/-- The disease filter with no resolved disease columns removes nothing. -/
theorem diseaseStage_nocols (cols : List String) (area : String) (rows : List Row) :
    diseaseStage cols area [] rows = rows := by
  simp [diseaseStage]

/-- The disease filter only removes rows. -/
theorem diseaseStage_subset (cols : List String) (area : String) (dcols : List String)
    (rows : List Row) : diseaseStage cols area dcols rows ⊆ rows := by
  unfold diseaseStage
  split
  · split
    · exact List.filter_subset' rows
    · exact fun x hx => hx
  · exact fun x hx => hx

/-- The disease filter is monotone in the row set. -/
theorem diseaseStage_mono (cols : List String) (area : String) (dcols : List String)
    {r1 r2 : List Row} (h : r1 ⊆ r2) :
    diseaseStage cols area dcols r1 ⊆ diseaseStage cols area dcols r2 := by
  unfold diseaseStage
  split
  · split
    · exact List.filter_subset _ h
    · exact h
  · exact h

/-- The exact-match filter with an inactive criterion removes nothing. -/
theorem exactStage_inactive (cols : List String) (crit : String) (colOpt : Option String)
    (rows : List Row) (h : inactiveSel crit) : exactStage cols crit colOpt rows = rows := by
  rcases h with h | h <;> subst h <;> cases colOpt <;> simp [exactStage]

/-- The exact-match filter with an unmapped column removes nothing. -/
theorem exactStage_unmapped (cols : List String) (crit : String) (colOpt : Option String)
    (rows : List Row) (h : ∀ c, colOpt = some c → cols.contains c = false) :
    exactStage cols crit colOpt rows = rows := by
  cases colOpt with
  | none => rfl
  | some c =>
    dsimp only [exactStage]
    rw [h c rfl]
    simp

/-- The exact-match filter only removes rows. -/
theorem exactStage_subset (cols : List String) (crit : String) (colOpt : Option String)
    (rows : List Row) : exactStage cols crit colOpt rows ⊆ rows := by
  cases colOpt with
  | none => exact fun x hx => hx
  | some c =>
    dsimp only [exactStage]
    split
    · exact List.filter_subset' rows
    · exact fun x hx => hx

/-- The exact-match filter is monotone in the row set. -/
theorem exactStage_mono (cols : List String) (crit : String) (colOpt : Option String)
    {r1 r2 : List Row} (h : r1 ⊆ r2) :
    exactStage cols crit colOpt r1 ⊆ exactStage cols crit colOpt r2 := by
  cases colOpt with
  | none => exact h
  | some c =>
    dsimp only [exactStage]
    split
    · exact List.filter_subset _ h
    · exact h

/-- The carer filter with an inactive criterion removes nothing. -/
theorem carerStage_inactive (cols : List String) (crit : String) (colOpt : Option String)
    (rows : List Row) (h : inactiveSel crit) : carerStage cols crit colOpt rows = rows := by
  rcases h with h | h <;> subst h <;> cases colOpt <;> simp [carerStage]

/-- The carer filter with an unmapped column removes nothing. -/
theorem carerStage_unmapped (cols : List String) (crit : String) (colOpt : Option String)
    (rows : List Row) (h : ∀ c, colOpt = some c → cols.contains c = false) :
    carerStage cols crit colOpt rows = rows := by
  cases colOpt with
  | none => rfl
  | some c =>
    dsimp only [carerStage]
    rw [h c rfl]
    simp

/-- The carer filter only removes rows. -/
theorem carerStage_subset (cols : List String) (crit : String) (colOpt : Option String)
    (rows : List Row) : carerStage cols crit colOpt rows ⊆ rows := by
  cases colOpt with
  | none => exact fun x hx => hx
  | some c =>
    dsimp only [carerStage]
    split
    · split
      · exact List.Subset.trans (List.filter_subset' _) (List.filter_subset' rows)
      · exact List.filter_subset' rows
    · exact fun x hx => hx

/-- The carer filter is monotone in the row set. -/
theorem carerStage_mono (cols : List String) (crit : String) (colOpt : Option String)
    {r1 r2 : List Row} (h : r1 ⊆ r2) :
    carerStage cols crit colOpt r1 ⊆ carerStage cols crit colOpt r2 := by
  cases colOpt with
  | none => exact h
  | some c =>
    dsimp only [carerStage]
    split
    · split
      · exact List.filter_subset _ (List.filter_subset _ h)
      · exact List.filter_subset _ h
    · exact h

/-- The name search with an empty query removes nothing. -/
theorem nameStage_empty (cols : List String) (colOpt : Option String) (rows : List Row) :
    nameStage cols "" colOpt rows = rows := by
  simp [nameStage]

/-- The name search with an unmapped column removes nothing. -/
theorem nameStage_unmapped (cols : List String) (search : String) (colOpt : Option String)
    (rows : List Row) (h : ∀ c, colOpt = some c → cols.contains c = false) :
    nameStage cols search colOpt rows = rows := by
  cases colOpt with
  | none =>
    dsimp only [nameStage]
    split <;> rfl
  | some c =>
    dsimp only [nameStage]
    rw [h c rfl]
    simp

/-- The name search only removes rows. -/
theorem nameStage_subset (cols : List String) (search : String) (colOpt : Option String)
    (rows : List Row) : nameStage cols search colOpt rows ⊆ rows := by
  cases colOpt with
  | none =>
    dsimp only [nameStage]
    split <;> exact fun x hx => hx
  | some c =>
    dsimp only [nameStage]
    split
    · split
      · exact List.filter_subset' rows
      · exact fun x hx => hx
    · exact fun x hx => hx

/-- The name search is monotone in the row set. -/
theorem nameStage_mono (cols : List String) (search : String) (colOpt : Option String)
    {r1 r2 : List Row} (h : r1 ⊆ r2) :
    nameStage cols search colOpt r1 ⊆ nameStage cols search colOpt r2 := by
  cases colOpt with
  | none =>
    dsimp only [nameStage]
    split <;> exact h
  | some c =>
    dsimp only [nameStage]
    split
    · split
      · exact List.filter_subset _ h
      · exact h
    · exact h

/-- The age step with an unmapped column removes nothing. -/
theorem ageStage_unmapped (cols : List String) (colOpt : Option String) (mn mx : Int)
    (rows : List Row) (h : ∀ c, colOpt = some c → cols.contains c = false) :
    ageStage cols colOpt mn mx rows = rows := by
  cases colOpt with
  | none => rfl
  | some c =>
    dsimp only [ageStage]
    rw [h c rfl]
    simp

/-- The age step only removes rows. -/
theorem ageStage_subset (cols : List String) (colOpt : Option String) (mn mx : Int)
    (rows : List Row) : ageStage cols colOpt mn mx rows ⊆ rows := by
  cases colOpt with
  | none => exact fun x hx => hx
  | some c =>
    dsimp only [ageStage]
    split
    · exact List.filter_subset' rows
    · exact fun x hx => hx

/-- The age step is monotone in the row set. -/
theorem ageStage_mono (cols : List String) (colOpt : Option String) (mn mx : Int)
    {r1 r2 : List Row} (h : r1 ⊆ r2) :
    ageStage cols colOpt mn mx r1 ⊆ ageStage cols colOpt mn mx r2 := by
  cases colOpt with
  | none => exact h
  | some c =>
    dsimp only [ageStage]
    split
    · exact List.filter_subset _ h
    · exact h

/-- The pre-age pipeline only removes rows. -/
theorem preAge_subset (cols : List String) (f : Filters) (rows : List Row) :
    preAge cols f rows ⊆ rows :=
  List.Subset.trans (exactStage_subset ..)
    (List.Subset.trans (carerStage_subset ..)
      (List.Subset.trans (exactStage_subset ..)
        (List.Subset.trans (exactStage_subset ..) (diseaseStage_subset ..))))

/-- Unfolding of `filter_dataframe` when either age bound is absent. -/
theorem filter_dataframe_age_none (cols : List String) (rows : List Row) (f : Filters)
    (h : f.min_age = none ∨ f.max_age = none) :
    filter_dataframe cols rows f =
      (nameStage cols f.name_search f.name_col (preAge cols f rows), false) := by
  unfold filter_dataframe
  rcases h with h | h
  · rw [h]
  · rw [h]
    cases hm : f.min_age <;> rfl

/-- Unfolding of `filter_dataframe` on the [0,0] no-filter convention. -/
theorem filter_dataframe_age_zero (cols : List String) (rows : List Row) (f : Filters)
    (h1 : f.min_age = some 0) (h2 : f.max_age = some 0) :
    filter_dataframe cols rows f =
      (nameStage cols f.name_search f.name_col (preAge cols f rows), false) := by
  unfold filter_dataframe
  rw [h1, h2]
  rfl

/-- Unfolding of `filter_dataframe` on an invalid (max < min) range. -/
theorem filter_dataframe_age_invalid (cols : List String) (rows : List Row) (f : Filters)
    (mn mx : Int) (h1 : f.min_age = some mn) (h2 : f.max_age = some mx) (hlt : mx < mn) :
    filter_dataframe cols rows f = (preAge cols f rows, true) := by
  have h0 : (mn == 0 && mx == 0) = false := by
    rcases Bool.eq_false_or_eq_true (mn == 0 && mx == 0) with h | h
    · simp only [Bool.and_eq_true, beq_iff_eq] at h
      omega
    · exact h
  unfold filter_dataframe
  rw [h1, h2]
  dsimp only
  rw [h0]
  simp only [Bool.false_eq_true, if_false]
  rw [if_pos hlt]

/-- Unfolding of `filter_dataframe` on a valid, active range. -/
theorem filter_dataframe_age_valid (cols : List String) (rows : List Row) (f : Filters)
    (mn mx : Int) (h1 : f.min_age = some mn) (h2 : f.max_age = some mx)
    (h0 : (mn == 0 && mx == 0) = false) (hle : mn ≤ mx) :
    filter_dataframe cols rows f =
      (nameStage cols f.name_search f.name_col
        (ageStage cols f.age_col mn mx (preAge cols f rows)), false) := by
  unfold filter_dataframe
  rw [h1, h2]
  dsimp only
  rw [h0]
  simp only [Bool.false_eq_true, if_false]
  rw [if_neg (not_lt.mpr hle)]

/-! ### Refinement of criteria sets (the A and B of claim C4)

`addsFilters A B` formalizes "B contains every active filter of A, plus
possibly more": both criteria sets are bound to the same resolved columns,
and on each criterion slot either A is inactive (so B is free to add a
filter there) or B carries exactly A's value. -/

/-- Both criteria sets target the same resolved columns. -/
abbrev sameCols (A B : Filters) : Prop :=
  B.disease_cols = A.disease_cols ∧ B.gender_col = A.gender_col ∧
    B.ethnicity_col = A.ethnicity_col ∧ B.carer_col = A.carer_col ∧
      B.sexuality_col = A.sexuality_col ∧ B.age_col = A.age_col ∧
        B.name_col = A.name_col

/-- B keeps every active filter of A and may add more. -/
abbrev addsFilters (A B : Filters) : Prop :=
  sameCols A B ∧
    (inactiveSel A.disease_area ∨ B.disease_area = A.disease_area) ∧
      (inactiveSel A.gender ∨ B.gender = A.gender) ∧
        (inactiveSel A.ethnicity ∨ B.ethnicity = A.ethnicity) ∧
          (inactiveSel A.carer ∨ B.carer = A.carer) ∧
            (inactiveSel A.sexuality ∨ B.sexuality = A.sexuality) ∧
              ((A.min_age = some 0 ∧ A.max_age = some 0) ∨
                (B.min_age = A.min_age ∧ B.max_age = A.max_age)) ∧
                (A.name_search = "" ∨ B.name_search = A.name_search)

/-- The age range of a criteria set is not the invalid (max < min) case. -/
abbrev validAge (f : Filters) : Prop :=
  ∀ mn mx, f.min_age = some mn → f.max_age = some mx → (mn = 0 ∧ mx = 0) ∨ mn ≤ mx

/-- A stronger criterion on the disease stage refines the weaker one. -/
theorem diseaseStage_rel (cols : List String) (a b : String) (dcols : List String)
    (h : inactiveSel a ∨ b = a) {r1 r2 : List Row} (hsub : r1 ⊆ r2) :
    diseaseStage cols b dcols r1 ⊆ diseaseStage cols a dcols r2 := by
  rcases h with h | h
  · rw [diseaseStage_inactive cols a dcols r2 h]
    exact List.Subset.trans (diseaseStage_subset ..) hsub
  · subst h
    exact diseaseStage_mono cols b dcols hsub

/-- A stronger criterion on an exact-match stage refines the weaker one. -/
theorem exactStage_rel (cols : List String) (a b : String) (co : Option String)
    (h : inactiveSel a ∨ b = a) {r1 r2 : List Row} (hsub : r1 ⊆ r2) :
    exactStage cols b co r1 ⊆ exactStage cols a co r2 := by
  rcases h with h | h
  · rw [exactStage_inactive cols a co r2 h]
    exact List.Subset.trans (exactStage_subset ..) hsub
  · subst h
    exact exactStage_mono cols b co hsub

/-- A stronger criterion on the carer stage refines the weaker one. -/
theorem carerStage_rel (cols : List String) (a b : String) (co : Option String)
    (h : inactiveSel a ∨ b = a) {r1 r2 : List Row} (hsub : r1 ⊆ r2) :
    carerStage cols b co r1 ⊆ carerStage cols a co r2 := by
  rcases h with h | h
  · rw [carerStage_inactive cols a co r2 h]
    exact List.Subset.trans (carerStage_subset ..) hsub
  · subst h
    exact carerStage_mono cols b co hsub

/-- A stronger query on the name-search stage refines the weaker one. -/
theorem nameStage_rel (cols : List String) (a b : String) (co : Option String)
    (h : a = "" ∨ b = a) {r1 r2 : List Row} (hsub : r1 ⊆ r2) :
    nameStage cols b co r1 ⊆ nameStage cols a co r2 := by
  rcases h with h | h
  · subst h
    rw [nameStage_empty]
    exact List.Subset.trans (nameStage_subset ..) hsub
  · subst h
    exact nameStage_mono cols b co hsub

/-- B's pre-age pipeline refines A's. -/
theorem preAge_rel (cols : List String) (rows : List Row) (A B : Filters)
    (hext : addsFilters A B) : preAge cols B rows ⊆ preAge cols A rows := by
  obtain ⟨⟨hdc, hgc, hec, hcc, hsc, _, _⟩, hd, hg, he, hc, hs, _, _⟩ := hext
  unfold preAge
  rw [hdc, hgc, hec, hcc, hsc]
  exact exactStage_rel cols A.sexuality B.sexuality A.sexuality_col hs
    (carerStage_rel cols A.carer B.carer A.carer_col hc
      (exactStage_rel cols A.ethnicity B.ethnicity A.ethnicity_col he
        (exactStage_rel cols A.gender B.gender A.gender_col hg
          (diseaseStage_rel cols A.disease_area B.disease_area A.disease_cols hd
            (fun x hx => hx)))))

/-- Two criteria sets with the same age and name slots and the same
pre-age behaviour produce the same engine output. -/
theorem filter_dataframe_congr (cols : List String) (rows : List Row) (f g : Filters)
    (h1 : g.min_age = f.min_age) (h2 : g.max_age = f.max_age) (h3 : g.age_col = f.age_col)
    (h4 : g.name_search = f.name_search) (h5 : g.name_col = f.name_col)
    (hpre : preAge cols g rows = preAge cols f rows) :
    filter_dataframe cols rows g = filter_dataframe cols rows f := by
  unfold filter_dataframe
  rw [h1, h2, h3, h4, h5, hpre]

/-- A select criterion whose resolved column is missing from the option
holder or from the table: the activation guard is then false. -/
abbrev colMissing (cols : List String) : Option String → Prop
  | some c => cols.contains c = false
  | none => True

/-- Decidability of `colMissing`, used to evaluate concrete instances. -/
instance instDecColMissing (cols : List String) (co : Option String) :
    Decidable (colMissing cols co) :=
  match co with
  | some c => inferInstanceAs (Decidable (cols.contains c = false))
  | none => inferInstanceAs (Decidable True)

/-- Two criteria sets with the same age slots, pointwise-equal name-stage
behaviour and the same pre-age behaviour produce the same engine output. -/
theorem filter_dataframe_congr_stages (cols : List String) (rows : List Row)
    (f g : Filters) (h1 : g.min_age = f.min_age) (h2 : g.max_age = f.max_age)
    (h3 : g.age_col = f.age_col)
    (hname : ∀ l, nameStage cols g.name_search g.name_col l =
      nameStage cols f.name_search f.name_col l)
    (hpre : preAge cols g rows = preAge cols f rows) :
    filter_dataframe cols rows g = filter_dataframe cols rows f := by
  unfold filter_dataframe
  rw [h1, h2, h3, hpre]
  simp only [hname]

end App4

namespace App5

/-- Unfolding of App5's `filter_dataframe` on an invalid (max < min)
range: the age, name and expertise steps are all skipped. -/
theorem filter_dataframe_invalid_range (cols : List String) (rows : List Row) (f : Filters)
    (mn mx : Int) (h1 : f.min_age = some mn) (h2 : f.max_age = some mx) (hlt : mx < mn) :
    filter_dataframe cols rows f = (preAge cols f rows, true) := by
  have h0 : (mn == 0 && mx == 0) = false := by
    rcases Bool.eq_false_or_eq_true (mn == 0 && mx == 0) with h | h
    · simp only [Bool.and_eq_true, beq_iff_eq] at h
      omega
    · exact h
  unfold filter_dataframe
  rw [h1, h2]
  dsimp only
  rw [h0]
  simp only [Bool.false_eq_true, if_false]
  rw [if_pos hlt]

end App5

/-! ### Lemmas about the merge step -/

/-- Under a duplicate-free secondary key column, filtering the secondary
rows by key equality yields the at-most-one row that `find?` locates. -/
theorem filter_key_nodup (srows : List Row) (iS : Nat) (k : Cell)
    (hnd : (srows.map (fun r => r.getD iS none)).Nodup) :
    srows.filter (fun sr => sr.getD iS none == k) =
      match srows.find? (fun sr => sr.getD iS none == k) with
      | some sr => [sr]
      | none => [] := by
  induction srows with
  | nil => rfl
  | cons a t ih =>
    rw [List.map_cons, List.nodup_cons] at hnd
    obtain ⟨hna, hnt⟩ := hnd
    by_cases ha : (a.getD iS none == k) = true
    · have ht : t.filter (fun sr => sr.getD iS none == k) = [] := by
        rw [List.filter_eq_nil_iff]
        intro b hb hbk
        apply hna
        rw [List.mem_map]
        refine ⟨b, hb, ?_⟩
        rw [beq_iff_eq.mp hbk, beq_iff_eq.mp ha]
      rw [List.filter_cons, if_pos ha, ht, List.find?_cons, ha]
    · have ha' : (a.getD iS none == k) = false := by
        simpa using ha
      rw [List.filter_cons, if_neg (by rw [ha']; simp), List.find?_cons, ha']
      exact ih hnt

/-- Under a duplicate-free secondary key column, the pandas left merge
keeps every primary row exactly once, in order, extended by its unique
matching secondary row (minus the right key cell when the key labels are
equal), or by all-NaN secondary cells when unmatched. -/
theorem mergeRows_eq_map (iP iS : Nat) (prows srows : List Row) (sWidth : Nat)
    (dropKey : Bool) (hnd : (srows.map (fun r => r.getD iS none)).Nodup) :
    mergeRows iP iS prows srows sWidth dropKey =
      prows.map (fun pr =>
        match srows.find? (fun sr => sr.getD iS none == pr.getD iP none) with
        | some sr => pr ++ (if dropKey then sr.eraseIdx iS else sr)
        | none => pr ++ List.replicate sWidth none) := by
  induction prows with
  | nil => rfl
  | cons a t ih =>
    unfold mergeRows
    unfold mergeRows at ih
    rw [List.flatMap_cons, ih, List.map_cons,
      filter_key_nodup srows iS (a.getD iP none) hnd]
    cases hf : srows.find? (fun sr => sr.getD iS none == a.getD iP none) with
    | none => rfl
    | some sr => rfl

/-! ### The claims -/

/-- C1.  Evaluation of App4's carer filter at the spec's own examples.
The multi-value half of the claim holds: a cell "Parent; Spouse" is kept
under criterion "Spouse" and dropped under "Sibling".  The "None" half is
inverted by the code: under criterion "None" the engine KEEPS the
"Parent; Spouse" row and DROPS the empty-cell and NaN-cell rows, the exact
opposite of the claimed (and comment-documented) behaviour, because lines
292-294 of App4.py filter with `isin(["none","nan",""]) == False` where
the inline comment says the intent is to keep the empty/"None" rows. -/
theorem carer_membership_code_eval :
    (App4.filter_dataframe ["carer"] [[some ""], [none], [some "Parent; Spouse"]]
        { anyFilters4 with carer := "None", carer_col := some "carer" }).1 =
      [[some "Parent; Spouse"]] ∧
    (App4.filter_dataframe ["carer"] [[some "Parent; Spouse"]]
        { anyFilters4 with carer := "Spouse", carer_col := some "carer" }).1 =
      [[some "Parent; Spouse"]] ∧
    (App4.filter_dataframe ["carer"] [[some "Parent; Spouse"]]
        { anyFilters4 with carer := "Sibling", carer_col := some "carer" }).1 =
      ([] : List Row) := by
  decide

/-- C2.  Invalid age-range recovery: whenever max-age < min-age the App4
engine returns the rows filtered by all criteria applied before the age
step together with the error signal, and in particular when every other
criterion is inactive it returns the input rows unchanged with the
signal. -/
theorem invalid_range_recovery (cols : List String) (rows : List Row) (f : App4.Filters)
    (mn mx : Int) (hmn : f.min_age = some mn) (hmx : f.max_age = some mx) (hlt : mx < mn) :
    App4.filter_dataframe cols rows f = (App4.preAge cols f rows, true) ∧
      (f.disease_area = "Any" → f.gender = "Any" → f.ethnicity = "Any" →
        f.carer = "Any" → f.sexuality = "Any" →
          App4.filter_dataframe cols rows f = (rows, true)) := by
  refine ⟨App4.filter_dataframe_age_invalid cols rows f mn mx hmn hmx hlt, ?_⟩
  intro hd hg he hc hs
  have hpre : App4.preAge cols f rows = rows := by
    unfold App4.preAge
    rw [App4.diseaseStage_inactive cols _ _ rows (Or.inr hd),
      App4.exactStage_inactive cols _ _ rows (Or.inr hg),
      App4.exactStage_inactive cols _ _ rows (Or.inr he),
      App4.carerStage_inactive cols _ _ rows (Or.inr hc),
      App4.exactStage_inactive cols _ _ rows (Or.inr hs)]
  rw [App4.filter_dataframe_age_invalid cols rows f mn mx hmn hmx hlt, hpre]

/-- C2 witness: min=50, max=20 with all other filters inactive returns the
two input rows unchanged plus the invalid-range signal. -/
theorem invalid_range_recovery_witness :
    App4.filter_dataframe ["name"] [[some "Alice"], [some "Bob"]]
        { anyFilters4 with min_age := some 50, max_age := some 20 } =
      ([[some "Alice"], [some "Bob"]], true) :=
  (invalid_range_recovery ["name"] [[some "Alice"], [some "Bob"]]
    { anyFilters4 with min_age := some 50, max_age := some 20 } 50 20 rfl rfl
    (by decide)).2 rfl rfl rfl rfl rfl

/-- C3.  No-op filter set is the identity: with every criterion at its
inactive value ("Any" selections, empty name search, age range [0,0]) the
App4 engine returns the input rows identically (same rows, same order,
same cells) and no error signal. -/
theorem noop_filter_identity (cols : List String) (rows : List Row) (f : App4.Filters)
    (hd : f.disease_area = "Any") (hg : f.gender = "Any") (he : f.ethnicity = "Any")
    (hc : f.carer = "Any") (hs : f.sexuality = "Any") (hmn : f.min_age = some 0)
    (hmx : f.max_age = some 0) (hn : f.name_search = "") :
    App4.filter_dataframe cols rows f = (rows, false) := by
  have hpre : App4.preAge cols f rows = rows := by
    unfold App4.preAge
    rw [App4.diseaseStage_inactive cols _ _ rows (Or.inr hd),
      App4.exactStage_inactive cols _ _ rows (Or.inr hg),
      App4.exactStage_inactive cols _ _ rows (Or.inr he),
      App4.carerStage_inactive cols _ _ rows (Or.inr hc),
      App4.exactStage_inactive cols _ _ rows (Or.inr hs)]
  rw [App4.filter_dataframe_age_zero cols rows f hmn hmx, hpre, hn, App4.nameStage_empty]

/-- C3 witness: the all-inactive criteria set on a concrete two-row table
returns it unchanged. -/
theorem noop_filter_identity_witness :
    App4.filter_dataframe ["name", "age"]
        [[some "Alice", some "34"], [some "Bob", none]] anyFilters4 =
      ([[some "Alice", some "34"], [some "Bob", none]], false) :=
  noop_filter_identity ["name", "age"] [[some "Alice", some "34"], [some "Bob", none]]
    anyFilters4 rfl rfl rfl rfl rfl rfl rfl rfl

/-- C5.  The [0,0] convention: when both age bounds are exactly 0 the App4
engine skips the age step entirely — the result is the other filters
applied with no age filtering and no signal, and it coincides with the
result for an unmapped age column, whatever the age column holds. -/
theorem zero_range_no_age_filter (cols : List String) (rows : List Row) (f : App4.Filters)
    (hmn : f.min_age = some 0) (hmx : f.max_age = some 0) :
    App4.filter_dataframe cols rows f =
      (App4.nameStage cols f.name_search f.name_col (App4.preAge cols f rows), false) ∧
      App4.filter_dataframe cols rows f =
        App4.filter_dataframe cols rows { f with age_col := none } := by
  refine ⟨App4.filter_dataframe_age_zero cols rows f hmn hmx, ?_⟩
  rw [App4.filter_dataframe_age_zero cols rows f hmn hmx,
    App4.filter_dataframe_age_zero cols rows { f with age_col := none } hmn hmx]
  rfl

/-- C5 witness: with bounds [0,0] and a mapped age column holding a
non-numeric value, a missing value and an out-of-any-range value, no row
is removed. -/
theorem zero_range_no_age_filter_witness :
    App4.filter_dataframe ["age"] [[some "x"], [none], [some "200"]]
        { anyFilters4 with age_col := some "age" } =
      ([[some "x"], [none], [some "200"]], false) := by
  rw [(zero_range_no_age_filter ["age"] [[some "x"], [none], [some "200"]]
    { anyFilters4 with age_col := some "age" } rfl rfl).1]
  decide

/-- C6 counterexample.  The claim says a missing/NaN cell is never kept
under an active exact-match criterion; but "nan" is an active criterion
(neither "Any" nor empty) and the engine keeps the NaN-cell row under it,
because pandas `astype(str)` coerces NaN to the text "nan". -/
theorem exact_match_nan_counterexample :
    ("nan" : String) ≠ "Any" ∧ ("nan" : String) ≠ "" ∧
      App4.exactStage ["g"] "nan" (some "g") [[none]] = [[none]] ∧
      (App4.filter_dataframe ["g"] [[none]]
          { anyFilters4 with gender := "nan", gender_col := some "g" }).1 = [[none]] := by
  decide

/-- C6 amended.  Exact-match semantics: under an active criterion on a
mapped column, a row is kept iff `strip(lower(str(cell)))` equals
`strip(lower(criterion))`, where a missing/NaN cell reads as the text
"nan"; consequently a missing-cell row is kept iff the normalized
criterion is exactly "nan", and is dropped for every other criterion. -/
theorem exact_match_semantics (cols : List String) (crit c : String) (rows : List Row)
    (h1 : crit ≠ "") (h2 : crit ≠ "Any") (h3 : cols.contains c = true) :
    ∀ r, (r ∈ App4.exactStage cols crit (some c) rows ↔
        r ∈ rows ∧ stripS (lowerS (cellStr (getCell cols r c))) = stripS (lowerS crit)) ∧
      (getCell cols r c = none →
        (r ∈ App4.exactStage cols crit (some c) rows ↔
          r ∈ rows ∧ stripS (lowerS crit) = "nan")) := by
  have hcond : (crit != "" && crit != "Any" && cols.contains c) = true := by
    simp only [Bool.and_eq_true, bne_iff_ne]
    exact ⟨⟨h1, h2⟩, h3⟩
  intro r
  have hmem : r ∈ App4.exactStage cols crit (some c) rows ↔
      r ∈ rows ∧ stripS (lowerS (cellStr (getCell cols r c))) = stripS (lowerS crit) := by
    dsimp only [App4.exactStage]
    rw [if_pos hcond, List.mem_filter]
    simp only [beq_iff_eq]
  refine ⟨hmem, fun hnone => ?_⟩
  rw [hmem, hnone]
  have hnan : stripS (lowerS (cellStr none)) = "nan" := by decide
  rw [hnan]
  constructor
  · rintro ⟨ha, hb⟩
    exact ⟨ha, hb.symm⟩
  · rintro ⟨ha, hb⟩
    exact ⟨ha, hb.symm⟩

/-- C6 amended witness: " Female " matches criterion "female" after
trimming and lowercasing. -/
theorem exact_match_semantics_witness :
    [some " Female "] ∈ App4.exactStage ["g"] "female" (some "g")
        [[some " Female "], [some "male"]] :=
  ((exact_match_semantics ["g"] "female" "g" [[some " Female "], [some "male"]]
    (by decide) (by decide) (by decide)) [some " Female "]).1.mpr (by decide)

/-- Criteria set for the C4 counterexample: only the name search active. -/
def cexA4 : App4.Filters :=
  { anyFilters4 with name_search := "bob", name_col := some "name" }

/-- Criteria set for the C4 counterexample: cexA4 plus an active but
invalid age range. -/
def cexB4 : App4.Filters :=
  { cexA4 with min_age := some 50, max_age := some 20 }

/-- C4 counterexample.  B = A plus an active age filter [50, 20], so B
contains every active filter of A; yet the row "alice" is in Result(B)
and not in Result(A), because the invalid range makes the engine return
before the name search that A applies. -/
theorem conjunction_monotonicity_counterexample :
    App4.addsFilters cexA4 cexB4 ∧
      [some "alice"] ∈ (App4.filter_dataframe ["name"] [[some "alice"]] cexB4).1 ∧
      [some "alice"] ∉ (App4.filter_dataframe ["name"] [[some "alice"]] cexA4).1 := by
  decide

/-- C4 amended.  Conjunction monotonicity holds provided B's added age
range is not the invalid (max < min) short-circuit case: when B keeps
every active filter of A (same resolved columns, A's active values copied)
and B's age range is valid or inactive, every row of Result(B) is a row of
Result(A). -/
theorem conjunction_monotonicity_valid (cols : List String) (rows : List Row)
    (A B : App4.Filters) (hext : App4.addsFilters A B) (hvB : App4.validAge B) :
    ∀ r, r ∈ (App4.filter_dataframe cols rows B).1 →
      r ∈ (App4.filter_dataframe cols rows A).1 := by
  have hpre := App4.preAge_rel cols rows A B hext
  obtain ⟨⟨hdc, hgc, hec, hcc, hsc, hac, hnc⟩, hd, hg, he, hc, hs, hage, hn⟩ := hext
  have hname : ∀ {l1 l2 : List Row}, l1 ⊆ l2 →
      App4.nameStage cols B.name_search B.name_col l1 ⊆
        App4.nameStage cols A.name_search A.name_col l2 := by
    intro l1 l2 h12
    rw [hnc]
    exact App4.nameStage_rel cols A.name_search B.name_search A.name_col hn h12
  intro r hr
  rcases hBm : B.min_age with _ | mn
  · rw [App4.filter_dataframe_age_none cols rows B (Or.inl hBm)] at hr
    rcases hage with ⟨hA1, hA2⟩ | ⟨hB1, hB2⟩
    · rw [App4.filter_dataframe_age_zero cols rows A hA1 hA2]
      exact hname hpre hr
    · rw [App4.filter_dataframe_age_none cols rows A (Or.inl (hB1.symm.trans hBm))]
      exact hname hpre hr
  · rcases hBx : B.max_age with _ | mx
    · rw [App4.filter_dataframe_age_none cols rows B (Or.inr hBx)] at hr
      rcases hage with ⟨hA1, hA2⟩ | ⟨hB1, hB2⟩
      · rw [App4.filter_dataframe_age_zero cols rows A hA1 hA2]
        exact hname hpre hr
      · rw [App4.filter_dataframe_age_none cols rows A (Or.inr (hB2.symm.trans hBx))]
        exact hname hpre hr
    · by_cases h0 : (mn == 0 && mx == 0) = true
      · rw [Bool.and_eq_true, beq_iff_eq, beq_iff_eq] at h0
        obtain ⟨hmn0, hmx0⟩ := h0
        subst hmn0
        subst hmx0
        rw [App4.filter_dataframe_age_zero cols rows B hBm hBx] at hr
        rcases hage with ⟨hA1, hA2⟩ | ⟨hB1, hB2⟩
        · rw [App4.filter_dataframe_age_zero cols rows A hA1 hA2]
          exact hname hpre hr
        · rw [App4.filter_dataframe_age_zero cols rows A (hB1.symm.trans hBm)
            (hB2.symm.trans hBx)]
          exact hname hpre hr
      · have h0f : (mn == 0 && mx == 0) = false := by
          rcases Bool.eq_false_or_eq_true (mn == 0 && mx == 0) with hh | hh
          · exact absurd hh h0
          · exact hh
        have hle : mn ≤ mx := by
          rcases hvB mn mx hBm hBx with ⟨h1', h2'⟩ | h'
          · subst h1'
            subst h2'
            simp at h0f
          · exact h'
        rw [App4.filter_dataframe_age_valid cols rows B mn mx hBm hBx h0f hle] at hr
        rcases hage with ⟨hA1, hA2⟩ | ⟨hB1, hB2⟩
        · rw [App4.filter_dataframe_age_zero cols rows A hA1 hA2]
          exact hname (List.Subset.trans (App4.ageStage_subset ..) hpre) hr
        · rw [App4.filter_dataframe_age_valid cols rows A mn mx (hB1.symm.trans hBm)
            (hB2.symm.trans hBx) h0f hle]
          rw [hac] at hr
          exact hname (App4.ageStage_mono cols A.age_col mn mx hpre) hr

/-- Criteria set for the C4 witness: only the gender filter active. -/
def cwitA4 : App4.Filters :=
  { anyFilters4 with gender := "f", gender_col := some "g", ethnicity_col := some "e" }

/-- Criteria set for the C4 witness: cwitA4 plus an active ethnicity
filter. -/
def cwitB4 : App4.Filters :=
  { cwitA4 with ethnicity := "x" }

/-- C4 amended witness: on a concrete table, the row kept by the stronger
criteria set cwitB4 is also kept by the weaker cwitA4. -/
theorem conjunction_monotonicity_valid_witness :
    [some "f", some "x"] ∈ (App4.filter_dataframe ["g", "e"]
        [[some "f", some "x"], [some "m", some "x"]] cwitA4).1 :=
  conjunction_monotonicity_valid ["g", "e"] [[some "f", some "x"], [some "m", some "x"]]
    cwitA4 cwitB4 (by decide)
    (by
      intro mn mx h1 h2
      have hmn : (0 : Int) = mn := Option.some.inj h1
      have hmx : (0 : Int) = mx := Option.some.inj h2
      omega)
    [some "f", some "x"] (by decide)

/-- Criteria set for the C7 counterexample: an active but invalid age
range bound to an UNMAPPED age column, plus an active name search. -/
def cqF4 : App4.Filters :=
  { anyFilters4 with
    min_age := some 50, max_age := some 20, name_search := "bob", name_col := some "name" }

/-- C7 counterexample.  The age criterion (50, 20) is active and its
column is unmapped (age_col is none), yet the engine does not behave as if
the criterion were inactive: it still takes the invalid-range early return
— surfacing the error signal and skipping the active name search — so the
returned table and signal both differ from the inactive-age run. -/
theorem unmapped_field_inert_counterexample :
    App4.colMissing ["name"] cqF4.age_col ∧
      App4.filter_dataframe ["name"] [[some "alice"]] cqF4 = ([[some "alice"]], true) ∧
      App4.filter_dataframe ["name"] [[some "alice"]]
          { cqF4 with min_age := some 0, max_age := some 0 } = ([], false) := by
  decide

/-- C7 amended.  Unmapped-field inertness holds filter by filter, except
for the invalid-range short-circuit: an active criterion bound to an
unmapped field removes no rows, never raises, and gives exactly the
inactive-criterion result — for the age range under the proviso that the
range is valid or [0,0], since an invalid range still short-circuits (with
its signal) even when the age column is unmapped. -/
theorem unmapped_field_inert (cols : List String) (rows : List Row) (f : App4.Filters) :
    (f.disease_cols = [] →
      App4.filter_dataframe cols rows f =
        App4.filter_dataframe cols rows { f with disease_area := "Any" }) ∧
    (App4.colMissing cols f.gender_col →
      App4.filter_dataframe cols rows f =
        App4.filter_dataframe cols rows { f with gender := "Any" }) ∧
    (App4.colMissing cols f.ethnicity_col →
      App4.filter_dataframe cols rows f =
        App4.filter_dataframe cols rows { f with ethnicity := "Any" }) ∧
    (App4.colMissing cols f.carer_col →
      App4.filter_dataframe cols rows f =
        App4.filter_dataframe cols rows { f with carer := "Any" }) ∧
    (App4.colMissing cols f.sexuality_col →
      App4.filter_dataframe cols rows f =
        App4.filter_dataframe cols rows { f with sexuality := "Any" }) ∧
    (App4.colMissing cols f.name_col →
      App4.filter_dataframe cols rows f =
        App4.filter_dataframe cols rows { f with name_search := "" }) ∧
    (App4.colMissing cols f.age_col → App4.validAge f →
      App4.filter_dataframe cols rows f =
        App4.filter_dataframe cols rows { f with min_age := some 0, max_age := some 0 }) := by
  refine ⟨?_, ?_, ?_, ?_, ?_, ?_, ?_⟩
  · intro hd
    refine (App4.filter_dataframe_congr cols rows f { f with disease_area := "Any" }
      rfl rfl rfl rfl rfl ?_).symm
    unfold App4.preAge
    dsimp only
    rw [hd, App4.diseaseStage_nocols, App4.diseaseStage_nocols]
  · intro hg
    refine (App4.filter_dataframe_congr cols rows f { f with gender := "Any" }
      rfl rfl rfl rfl rfl ?_).symm
    unfold App4.preAge
    dsimp only
    rw [App4.exactStage_unmapped cols f.gender f.gender_col _
        (fun c hc => by rw [hc] at hg; exact hg),
      App4.exactStage_inactive cols "Any" f.gender_col _ (Or.inr rfl)]
  · intro he
    refine (App4.filter_dataframe_congr cols rows f { f with ethnicity := "Any" }
      rfl rfl rfl rfl rfl ?_).symm
    unfold App4.preAge
    dsimp only
    rw [App4.exactStage_unmapped cols f.ethnicity f.ethnicity_col _
        (fun c hc => by rw [hc] at he; exact he),
      App4.exactStage_inactive cols "Any" f.ethnicity_col _ (Or.inr rfl)]
  · intro hc
    refine (App4.filter_dataframe_congr cols rows f { f with carer := "Any" }
      rfl rfl rfl rfl rfl ?_).symm
    unfold App4.preAge
    dsimp only
    rw [App4.carerStage_unmapped cols f.carer f.carer_col _
        (fun c hcc => by rw [hcc] at hc; exact hc),
      App4.carerStage_inactive cols "Any" f.carer_col _ (Or.inr rfl)]
  · intro hs
    refine (App4.filter_dataframe_congr cols rows f { f with sexuality := "Any" }
      rfl rfl rfl rfl rfl ?_).symm
    unfold App4.preAge
    dsimp only
    rw [App4.exactStage_unmapped cols f.sexuality f.sexuality_col _
        (fun c hcc => by rw [hcc] at hs; exact hs),
      App4.exactStage_inactive cols "Any" f.sexuality_col _ (Or.inr rfl)]
  · intro hnm
    have hun : ∀ l, App4.nameStage cols f.name_search f.name_col l = l := fun l =>
      App4.nameStage_unmapped cols f.name_search f.name_col l
        (fun c hcc => by rw [hcc] at hnm; exact hnm)
    refine (App4.filter_dataframe_congr_stages cols rows f { f with name_search := "" }
      rfl rfl rfl ?_ rfl).symm
    intro l
    dsimp only
    rw [App4.nameStage_empty cols f.name_col l, hun l]
  · intro ham hv
    rw [App4.filter_dataframe_age_zero cols rows
      { f with min_age := some 0, max_age := some 0 } rfl rfl]
    rcases hm : f.min_age with _ | mn
    · rw [App4.filter_dataframe_age_none cols rows f (Or.inl hm)]
      rfl
    · rcases hx : f.max_age with _ | mx
      · rw [App4.filter_dataframe_age_none cols rows f (Or.inr hx)]
        rfl
      · by_cases h0 : (mn == 0 && mx == 0) = true
        · rw [Bool.and_eq_true, beq_iff_eq, beq_iff_eq] at h0
          obtain ⟨h01, h02⟩ := h0
          subst h01
          subst h02
          rw [App4.filter_dataframe_age_zero cols rows f hm hx]
          rfl
        · have h0f : (mn == 0 && mx == 0) = false := by
            rcases Bool.eq_false_or_eq_true (mn == 0 && mx == 0) with hh | hh
            · exact absurd hh h0
            · exact hh
          have hle : mn ≤ mx := by
            rcases hv mn mx hm hx with ⟨h1', h2'⟩ | h'
            · subst h1'
              subst h2'
              simp at h0f
            · exact h'
          rw [App4.filter_dataframe_age_valid cols rows f mn mx hm hx h0f hle,
            App4.ageStage_unmapped cols f.age_col mn mx _
              (fun c hcc => by rw [hcc] at ham; exact ham)]
          rfl

/-- Criteria set for the C7 amended witness: every criterion active,
every column unmapped, with a valid age range. -/
def cwit7 : App4.Filters :=
  { disease_area := "X", disease_cols := [], gender := "F", gender_col := none,
    ethnicity := "E", ethnicity_col := some "zz", carer := "C", carer_col := none,
    sexuality := "S", sexuality_col := none, min_age := some 10, max_age := some 20,
    age_col := none, name_search := "q", name_col := none }

/-- C7 amended witness: with an unmapped gender column and an unmapped age
column carrying a valid range, the engine output equals the
inactive-criterion output. -/
theorem unmapped_field_inert_witness :
    App4.filter_dataframe ["a"] [[some "1"]] cwit7 =
      App4.filter_dataframe ["a"] [[some "1"]] { cwit7 with gender := "Any" } ∧
    App4.filter_dataframe ["a"] [[some "1"]] cwit7 =
      App4.filter_dataframe ["a"] [[some "1"]]
        { cwit7 with min_age := some 0, max_age := some 0 } := by
  refine ⟨(unmapped_field_inert ["a"] [[some "1"]] cwit7).2.1 (by decide), ?_⟩
  exact (unmapped_field_inert ["a"] [[some "1"]] cwit7).2.2.2.2.2.2 (by decide)
    (by
      intro mn mx h1 h2
      have hmn : (10 : Int) = mn := Option.some.inj h1
      have hmx : (20 : Int) = mx := Option.some.inj h2
      omega)

/-- Primary table for the C9 counterexample. -/
def dfC9p : Df := { cols := ["id", "a"], rows := [[some "1", some "x"]] }

/-- Secondary table for the C9 counterexample, with a duplicated
identifier value. -/
def dfC9s : Df :=
  { cols := ["id", "b"], rows := [[some "1", some "y"], [some "1", some "z"]] }

/-- C9 counterexample.  When two secondary rows share an identifier value,
the pandas left merge pairs the single primary row with BOTH of them: the
merged table holds two rows for one primary row — the primary row is
joined to two different secondary rows and the row count grows — which
contradicts the claimed "left-joined to at most one secondary row".  (The
identifier labels being equal, the right key column is dropped, so the
merged columns are just ["id", "a", "b"].) -/
theorem merge_duplicate_id_counterexample :
    dfC9p.rows.length = 1 ∧
      df_merged dfC9p dfC9s "id" "id" =
        some { cols := ["id", "a", "b"]
               rows := [[some "1", some "x", some "y"],
                        [some "1", some "x", some "z"]] } := by
  decide

/-- C9 amended.  When the secondary identifier column is duplicate-free,
the merge has exactly the claimed shape: every primary row appears exactly
once, in order, left-joined to its at-most-one matching secondary row
(identifier cells equal), and an unmatched primary row is padded with
null (NaN) values in every secondary field.  When the two identifier
labels are the same string, the merged table carries a single identifier
column (pandas drops the right key column and its cells); with distinct
labels both key columns survive, the right one suffixed on collision. -/
theorem merge_unique_id_semantics (p s : Df) (pid sid : String) (iP iS : Nat)
    (hp : colIdx p.cols pid = some iP) (hsid : colIdx s.cols sid = some iS)
    (hnd : (s.rows.map (fun r => r.getD iS none)).Nodup) :
    (pid = sid →
      df_merged p s pid sid =
        some { cols := mergeCols p.cols (s.cols.eraseIdx iS)
               rows := p.rows.map (fun pr =>
                 match s.rows.find? (fun sr => sr.getD iS none == pr.getD iP none) with
                 | some sr => pr ++ sr.eraseIdx iS
                 | none => pr ++ List.replicate (s.cols.eraseIdx iS).length none) }) ∧
    (pid ≠ sid →
      df_merged p s pid sid =
        some { cols := mergeCols p.cols s.cols
               rows := p.rows.map (fun pr =>
                 match s.rows.find? (fun sr => sr.getD iS none == pr.getD iP none) with
                 | some sr => pr ++ sr
                 | none => pr ++ List.replicate s.cols.length none) }) := by
  constructor
  · intro heq
    unfold df_merged
    rw [hp, hsid]
    dsimp only
    rw [if_pos (beq_iff_eq.mpr heq),
      mergeRows_eq_map iP iS p.rows s.rows (s.cols.eraseIdx iS).length true hnd]
    rfl
  · intro hne
    unfold df_merged
    rw [hp, hsid]
    dsimp only
    rw [if_neg (fun h => hne (beq_iff_eq.mp h)),
      mergeRows_eq_map iP iS p.rows s.rows s.cols.length false hnd]
    rfl

/-- Primary table for the C9 amended witness. -/
def dfW9p : Df :=
  { cols := ["id", "a"], rows := [[some "1", some "x"], [some "2", some "w"]] }

/-- Secondary table for the C9 amended witness (unique identifiers). -/
def dfW9s : Df := { cols := ["id", "b"], rows := [[some "1", some "y"]] }

/-- C9 amended witness: with equal identifier labels the merged table has
a single id column; the matched primary row gains the remaining secondary
cell, the unmatched one is padded with a null, and both keep their
order. -/
theorem merge_unique_id_semantics_witness :
    df_merged dfW9p dfW9s "id" "id" =
      some { cols := ["id", "a", "b"]
             rows := [[some "1", some "x", some "y"],
                      [some "2", some "w", none]] } := by
  rw [(merge_unique_id_semantics dfW9p dfW9s "id" "id" 0 0 rfl rfl (by decide)).1 rfl]
  decide

/-- C10.  When the age range is invalid (max < min, necessarily not both
zero), both engines return immediately after the age check: the App4
output is unchanged under any replacement of the name search, and the
App5 output equals its pre-age pipeline with the signal and is unchanged
under any replacement of the name and expertise searches — the filters
ordered after the age step are never applied even when active. -/
theorem invalid_range_skips_later_filters (cols : List String) (rows : List Row)
    (f : App4.Filters) (mn mx : Int) (h1 : f.min_age = some mn) (h2 : f.max_age = some mx)
    (hlt : mx < mn) (cols5 : List String) (rows5 : List Row) (g : App5.Filters)
    (mn5 mx5 : Int) (h3 : g.min_age = some mn5) (h4 : g.max_age = some mx5)
    (hlt5 : mx5 < mn5) :
    (∀ s, App4.filter_dataframe cols rows f =
        App4.filter_dataframe cols rows { f with name_search := s }) ∧
      App5.filter_dataframe cols5 rows5 g = (App5.preAge cols5 g rows5, true) ∧
      (∀ s t, App5.filter_dataframe cols5 rows5 g =
        App5.filter_dataframe cols5 rows5
          { g with name_search := s, expertise_search := t }) := by
  refine ⟨?_, App5.filter_dataframe_invalid_range cols5 rows5 g mn5 mx5 h3 h4 hlt5, ?_⟩
  · intro s
    rw [App4.filter_dataframe_age_invalid cols rows f mn mx h1 h2 hlt,
      App4.filter_dataframe_age_invalid cols rows { f with name_search := s }
        mn mx h1 h2 hlt]
    rfl
  · intro s t
    rw [App5.filter_dataframe_invalid_range cols5 rows5 g mn5 mx5 h3 h4 hlt5,
      App5.filter_dataframe_invalid_range cols5 rows5
        { g with name_search := s, expertise_search := t } mn5 mx5 h3 h4 hlt5]
    rfl

/-- App4 criteria set for the C10 witness: invalid range plus an active
name search. -/
def cw10a : App4.Filters :=
  { anyFilters4 with
    min_age := some 50, max_age := some 20, name_search := "bob", name_col := some "name" }

/-- App5 criteria set for the C10 witness: invalid range plus active name
and expertise searches. -/
def cw10b : App5.Filters :=
  { anyFilters5 with
    min_age := some 50, max_age := some 20, name_search := "bob",
    name_col := some "name", expertise_search := "zz", expertise_col := some "name" }

/-- C10 witness: with min=50 and max=20, a row that the active name search
would remove is still returned by both engines, with the signal. -/
theorem invalid_range_skips_later_filters_witness :
    App4.filter_dataframe ["name"] [[some "alice"]] cw10a =
      App4.filter_dataframe ["name"] [[some "alice"]] { cw10a with name_search := "zzz" } ∧
    App5.filter_dataframe ["name"] [[some "alice"]] cw10b = ([[some "alice"]], true) := by
  have h := invalid_range_skips_later_filters ["name"] [[some "alice"]] cw10a 50 20 rfl rfl
    (by decide) ["name"] [[some "alice"]] cw10b 50 20 rfl rfl (by decide)
  refine ⟨h.1 "zzz", ?_⟩
  rw [h.2.1]
  decide
